import Mathlib

/-
Verification of the opportunity-scoring core of the ecommerce-ai-research
repository (src/ai_analyzer.py).

Embedding notes:
- Text is modelled as `List Char`; Python's `text.lower()` is modelled by
  mapping `Char.toLower` over the list (the inputs of interest are ASCII).
- Python float arithmetic is modelled exactly over `ℚ`; all constants in the
  source (0.25, 0.30, 0.15, 9.0, ...) and all claimed outputs are exactly
  representable, so the exact-rational model agrees with the claimed values.
- Python's `round(x, 2)` (round-half-to-even on the value) is modelled by
  `round2` below.
- `re.search` with the source's four patterns is modelled by a backtracking
  matcher specialised to the regex constructs those patterns use
  (literal runs, the character classes `[:\s]`, `[/\s]`, `\s`, `\d`, greedy
  `+`/`*`/`?`, one capturing group).  `searchPat` scans start positions left
  to right, and within a position alternatives are tried in Python's greedy
  depth-first order, so the returned capture is exactly the one
  `re.search(pattern, text).group(1)` yields.
- `float(...)` applied to a captured group (shape `\d+(\.\d+)?`) is modelled
  by `parseFloat`, which returns `none` on any other shape, mirroring the
  `except ValueError: continue` fall-through in the source.
-/

/-- Python's `\s` on the ASCII range: space, tab, newline, carriage return,
vertical tab, form feed. -/
def isSpaceChar (c : Char) : Bool :=
  c == ' ' || c == '\t' || c == '\n' || c == '\r' || c == '\x0b' || c == '\x0c'

/-- The character class `[:\s]` used after the `score`/`rating`/`value` labels. -/
def isColonSpace (c : Char) : Bool := c == ':' || isSpaceChar c

/-- The character class `[/\s]` used before the trailing `10`. -/
def isSlashSpace (c : Char) : Bool := c == '/' || isSpaceChar c

/-- Match a literal character run at the front of `s`, passing the rest to the
continuation `k`. -/
def matchLit (lit : List Char) (s : List Char) (k : List Char → Option (List Char)) :
    Option (List Char) :=
  match lit, s with
  | [], rest => k rest
  | _ :: _, [] => none
  | l :: ls, c :: cs => if c = l then matchLit ls cs k else none

/-- Greedy `cls*`: consume as many class characters as possible first, backtracking
to shorter runs (down to the empty run) when the continuation fails. -/
def clsStar (cls : Char → Bool) : List Char → (List Char → Option (List Char)) →
    Option (List Char)
  | [], k => k []
  | c :: cs, k => if cls c then (clsStar cls cs k) <|> k (c :: cs) else k (c :: cs)

/-- Greedy `cls+`: one mandatory class character followed by `cls*`. -/
def clsPlus (cls : Char → Bool) (s : List Char) (k : List Char → Option (List Char)) :
    Option (List Char) :=
  match s with
  | [] => none
  | c :: cs => if cls c then clsStar cls cs k else none

/-- Greedy capturing `\d*` continuing a capture already holding `acc`: longest
digit run first, backtracking to shorter runs.  The continuation receives the
capture and the rest of the input. -/
def digitsStarAcc (acc : List Char) : List Char →
    (List Char → List Char → Option (List Char)) → Option (List Char)
  | [], k => k acc []
  | c :: cs, k =>
      if c.isDigit then (digitsStarAcc (acc ++ [c]) cs k) <|> k acc (c :: cs)
      else k acc (c :: cs)

/-- Greedy capturing `\d+`. -/
def digitsPlus (s : List Char) (k : List Char → List Char → Option (List Char)) :
    Option (List Char) :=
  match s with
  | [] => none
  | c :: cs => if c.isDigit then digitsStarAcc [c] cs k else none

/-- The capturing group `(\d+(?:\.\d+)?)` shared by all patterns: an integer part,
then (greedily, with backtracking) an optional fractional part. -/
def numGroup (s : List Char) (k : List Char → List Char → Option (List Char)) :
    Option (List Char) :=
  digitsPlus s (fun d rest =>
    (match rest with
     | '.' :: r2 => digitsPlus r2 (fun f rest2 => k (d ++ '.' :: f) rest2)
     | _ => none) <|> k d rest)

/-- The optional group `(?:out of |/)?`: try `out of `, then `/`, then empty. -/
def outOfOpt (s : List Char) (k : List Char → Option (List Char)) : Option (List Char) :=
  (matchLit ("out of ".data) s k) <|> ((matchLit ("/".data) s k) <|> k s)

/-- `score[:\s]+(\d+(?:\.\d+)?)` anchored at the current position; returns the
capture of group 1 on success. -/
def scoreAt (s : List Char) : Option (List Char) :=
  matchLit ("score".data) s (fun r1 =>
    clsPlus isColonSpace r1 (fun r2 =>
      numGroup r2 (fun g _ => some g)))

/-- `(\d+(?:\.\d+)?)[/\s]*(?:out of |/)?\s*10` anchored at the current position. -/
def slash10At (s : List Char) : Option (List Char) :=
  numGroup s (fun g r1 =>
    clsStar isSlashSpace r1 (fun r2 =>
      outOfOpt r2 (fun r3 =>
        clsStar isSpaceChar r3 (fun r4 =>
          matchLit ("10".data) r4 (fun _ => some g)))))

/-- `rating[:\s]+(\d+(?:\.\d+)?)` anchored at the current position. -/
def ratingAt (s : List Char) : Option (List Char) :=
  matchLit ("rating".data) s (fun r1 =>
    clsPlus isColonSpace r1 (fun r2 =>
      numGroup r2 (fun g _ => some g)))

/-- `(\d+(?:\.\d+)?)[/\s]*10` anchored at the current position. -/
def bare10At (s : List Char) : Option (List Char) :=
  numGroup s (fun g r1 =>
    clsStar isSlashSpace r1 (fun r2 =>
      matchLit ("10".data) r2 (fun _ => some g)))

/-- `commercial value[:\s]+(\d+(?:\.\d+)?)` anchored at the current position
(first pattern of `KeywordAnalyzer.extract_numeric_score`). -/
def commercialValueAt (s : List Char) : Option (List Char) :=
  matchLit ("commercial value".data) s (fun r1 =>
    clsPlus isColonSpace r1 (fun r2 =>
      numGroup r2 (fun g _ => some g)))

/-- `value[:\s]+(\d+(?:\.\d+)?)` anchored at the current position
(second pattern of `KeywordAnalyzer.extract_numeric_score`). -/
def valueAt (s : List Char) : Option (List Char) :=
  matchLit ("value".data) s (fun r1 =>
    clsPlus isColonSpace r1 (fun r2 =>
      numGroup r2 (fun g _ => some g)))

/-- `re.search`: try the anchored pattern at each start position, leftmost first
(also at the empty suffix, where every pattern above fails). -/
def searchPat (p : List Char → Option (List Char)) : List Char → Option (List Char)
  | [] => p []
  | c :: cs => (p (c :: cs)) <|> searchPat p cs

/-- Decimal value of a digit run (used to model `float` on captured groups). -/
def digitsVal (acc : Nat) : List Char → Nat
  | [] => acc
  | c :: cs => digitsVal (acc * 10 + (c.toNat - 48)) cs

/-- Python's `float(...)` on a captured group.  Captured groups always have the
shape `\d+` or `\d+.\d+`; on those this is their exact decimal value, and any
other shape yields `none` (the `ValueError` branch of the source). -/
def parseFloat (cs : List Char) : Option ℚ :=
  let ip := cs.takeWhile Char.isDigit
  let rest := cs.dropWhile Char.isDigit
  if ip.isEmpty then none
  else
    match rest with
    | [] => some (digitsVal 0 ip : Nat)
    | '.' :: fp =>
        if fp.isEmpty then none
        else if fp.all Char.isDigit then
          some ((digitsVal 0 ip : Nat) + (digitsVal 0 fp : Nat) / (10 : ℚ) ^ fp.length)
        else none
    | _ => none

/-- Python's `text.lower()` (ASCII). -/
def lowerText (s : List Char) : List Char := s.map Char.toLower

/-- The pattern loop of `ProductAnalysisEngine.extract_numeric_score`: for each
pattern in order, search the whole text; on a match, parse group 1, and on a
parse failure fall through to the next pattern. -/
def tryPatterns (s : List Char) : Option ℚ :=
  ((searchPat scoreAt s).bind parseFloat) <|>
    (((searchPat slash10At s).bind parseFloat) <|>
      (((searchPat ratingAt s).bind parseFloat) <|>
        ((searchPat bare10At s).bind parseFloat)))

/-- `ProductAnalysisEngine.extract_numeric_score(text, default)`: lowercase the
text, run the pattern loop, clamp a matched value via `min(10.0, max(1.0, score))`,
and return `default` when nothing matched. -/
def extract_numeric_score (text : List Char) (dflt : ℚ) : ℚ :=
  match tryPatterns (lowerText text) with
  | some score => min 10 (max 1 score)
  | none => dflt

/-- The pattern loop of `KeywordAnalyzer.extract_numeric_score` (patterns
`commercial value[:\s]+(...)`, `value[:\s]+(...)`, `(...)[/\s]*(?:out of |/)?\s*10`). -/
def KeywordAnalyzer.tryPatterns (s : List Char) : Option ℚ :=
  ((searchPat commercialValueAt s).bind parseFloat) <|>
    (((searchPat valueAt s).bind parseFloat) <|>
      ((searchPat slash10At s).bind parseFloat))

/-- `KeywordAnalyzer.extract_numeric_score(text, default)`: same loop shape as the
engine variant, but the matched value is returned as `float(match.group(1))`
directly, with no clamping. -/
def KeywordAnalyzer.extract_numeric_score (text : List Char) (dflt : ℚ) : ℚ :=
  match KeywordAnalyzer.tryPatterns (lowerText text) with
  | some score => score
  | none => dflt

/-- Substring test used only to state claims about texts "containing" a literal. -/
def containsLit (lit : List Char) (s : List Char) : Bool :=
  (searchPat (fun r => matchLit lit r some) s).isSome

/-- The `analysis` dict as consumed by `calculate_opportunity_score`: a field is
`none` when the key is absent. -/
structure Analysis where
  trend_score : Option ℚ
  profit_potential : Option ℚ
  market_demand : Option ℚ
  competition_level : Option String

/-- The `competition_scores` dict of `calculate_opportunity_score`;
`none` models a key that is not in the dict. -/
def competition_scores (s : String) : Option ℚ :=
  if s = "Low" then some 9
  else if s = "Medium" then some 6
  else if s = "High" then some 4
  else if s = "Very High" then some 2
  else if s = "Unknown" then some 5
  else none

/-- `competition_scores.get(analysis.get('competition_level', 'Unknown'), 5.0)`. -/
def competitionScore (a : Analysis) : ℚ :=
  (competition_scores (a.competition_level.getD "Unknown")).getD 5

/-- Round-half-to-even to an integer, the tie-breaking rule of Python's `round`. -/
def roundHalfEven (x : ℚ) : ℤ :=
  if x - ⌊x⌋ < 1/2 then ⌊x⌋
  else if 1/2 < x - ⌊x⌋ then ⌊x⌋ + 1
  else if ⌊x⌋ % 2 = 0 then ⌊x⌋ else ⌊x⌋ + 1

/-- Python's `round(x, 2)` on the exact value. -/
def round2 (x : ℚ) : ℚ := (roundHalfEven (x * 100) : ℚ) / 100

/-- `ProductAnalysisEngine.calculate_opportunity_score(analysis)`: each numeric
factor defaults to 5.0 when absent, the competition label maps through
`competition_scores` with default 5.0, and the weighted sum is rounded to two
decimals.  The weights are 0.25 / 0.30 / 0.30 / 0.15 as in the source. -/
def calculate_opportunity_score (a : Analysis) : ℚ :=
  round2 (a.trend_score.getD 5 * (25/100) + a.profit_potential.getD 5 * (30/100) +
    a.market_demand.getD 5 * (30/100) + competitionScore a * (15/100))

/-- Modelled from the spec's words for claim C1 only: the fixed
label-to-proxy lookup (Low→9.0, Medium→6.0, High→4.0, Very High→2.0,
Unknown→5.0), to be compared with the source's `competition_scores` lookup. -/
def specCompetitionProxy (s : String) : ℚ :=
  if s = "Low" then 9
  else if s = "Medium" then 6
  else if s = "High" then 4
  else if s = "Very High" then 2
  else 5

/-! ### Helper lemmas -/

lemma floor_le_roundHalfEven (x : ℚ) : ⌊x⌋ ≤ roundHalfEven x := by
  unfold roundHalfEven; split_ifs <;> omega

lemma roundHalfEven_le_floor_add_one (x : ℚ) : roundHalfEven x ≤ ⌊x⌋ + 1 := by
  unfold roundHalfEven; split_ifs <;> omega

lemma roundHalfEven_intCast (n : ℤ) : roundHalfEven (n : ℚ) = n := by
  unfold roundHalfEven
  rw [Int.floor_intCast]
  norm_num

lemma round2_div100 (n : ℤ) : round2 ((n : ℚ) / 100) = (n : ℚ) / 100 := by
  unfold round2
  rw [div_mul_cancel₀ _ (show (100 : ℚ) ≠ 0 by norm_num), roundHalfEven_intCast]

lemma round2_bounds (x : ℚ) (h1 : 115/100 ≤ x) (h2 : x ≤ 985/100) :
    1 ≤ round2 x ∧ round2 x ≤ 10 := by
  have hl : (115 : ℤ) ≤ ⌊x * 100⌋ := by
    rw [Int.le_floor]; push_cast; linarith
  have hu : ⌊x * 100⌋ ≤ 985 := by
    have hfl := Int.floor_le (x * 100)
    have hq : (⌊x * 100⌋ : ℚ) ≤ 985 := by linarith
    exact_mod_cast hq
  have g1 := floor_le_roundHalfEven (x * 100)
  have g2 := roundHalfEven_le_floor_add_one (x * 100)
  have q1 : (115 : ℚ) ≤ (roundHalfEven (x * 100) : ℚ) := by exact_mod_cast le_trans hl g1
  have q2 : (roundHalfEven (x * 100) : ℚ) ≤ 986 := by
    exact_mod_cast le_trans g2 (by omega : ⌊x * 100⌋ + 1 ≤ 986)
  unfold round2
  exact ⟨by linarith, by linarith⟩

lemma competitionScore_bounds (a : Analysis) :
    2 ≤ competitionScore a ∧ competitionScore a ≤ 9 := by
  obtain ⟨t, p, m, c⟩ := a
  cases c with
  | none =>
      have h : competitionScore ⟨t, p, m, none⟩ = 5 := rfl
      rw [h]
      exact ⟨by norm_num, by norm_num⟩
  | some s =>
      unfold competitionScore competition_scores
      simp only [Option.getD_some]
      split_ifs <;> simp <;> norm_num

lemma clamp_bounds (v : ℚ) : 1 ≤ min 10 (max 1 v) ∧ min 10 (max 1 v) ≤ 10 :=
  ⟨le_min (by norm_num) (le_max_left 1 v), min_le_left 10 (max 1 v)⟩

/-! ### Claim theorems -/

/-- C1: for every analysis record whose `trend_score`, `profit_potential` and
`market_demand` lie in [1, 10] and whose `competition_level` is one of Low,
Medium, High, Very High, Unknown, `calculate_opportunity_score` returns
`round(trend*0.25 + profit*0.30 + demand*0.30 + proxy*0.15, 2)` with proxy
Low→9, Medium→6, High→4, Very High→2, Unknown→5; in particular all-10 inputs
with Low yield 9.85, all-1 inputs with Very High yield 1.15, and all-5 inputs
with Unknown yield 5.00. -/
theorem C1_opportunity_score_formula (t p m : ℚ) (c : String)
    (ht1 : 1 ≤ t) (ht2 : t ≤ 10) (hp1 : 1 ≤ p) (hp2 : p ≤ 10)
    (hm1 : 1 ≤ m) (hm2 : m ≤ 10)
    (hc : c = "Low" ∨ c = "Medium" ∨ c = "High" ∨ c = "Very High" ∨ c = "Unknown") :
    calculate_opportunity_score ⟨some t, some p, some m, some c⟩ =
      round2 (t * (25/100) + p * (30/100) + m * (30/100) +
        specCompetitionProxy c * (15/100)) ∧
    calculate_opportunity_score ⟨some 10, some 10, some 10, some "Low"⟩ = 985/100 ∧
    calculate_opportunity_score ⟨some 1, some 1, some 1, some "Very High"⟩ = 115/100 ∧
    calculate_opportunity_score ⟨some 5, some 5, some 5, some "Unknown"⟩ = 5 := by
  refine ⟨?_, ?_, ?_, ?_⟩
  · rcases hc with rfl | rfl | rfl | rfl | rfl <;> rfl
  · have h : calculate_opportunity_score ⟨some 10, some 10, some 10, some "Low"⟩ =
        round2 (10 * (25/100) + 10 * (30/100) + 10 * (30/100) + 9 * (15/100)) := rfl
    rw [h, show (10:ℚ) * (25/100) + 10 * (30/100) + 10 * (30/100) + 9 * (15/100) =
      ((985:ℤ):ℚ)/100 by push_cast; norm_num, round2_div100]
    push_cast; norm_num
  · have h : calculate_opportunity_score ⟨some 1, some 1, some 1, some "Very High"⟩ =
        round2 (1 * (25/100) + 1 * (30/100) + 1 * (30/100) + 2 * (15/100)) := rfl
    rw [h, show (1:ℚ) * (25/100) + 1 * (30/100) + 1 * (30/100) + 2 * (15/100) =
      ((115:ℤ):ℚ)/100 by push_cast; norm_num, round2_div100]
    push_cast; norm_num
  · have h : calculate_opportunity_score ⟨some 5, some 5, some 5, some "Unknown"⟩ =
        round2 (5 * (25/100) + 5 * (30/100) + 5 * (30/100) + 5 * (15/100)) := rfl
    rw [h, show (5:ℚ) * (25/100) + 5 * (30/100) + 5 * (30/100) + 5 * (15/100) =
      ((500:ℤ):ℚ)/100 by push_cast; norm_num, round2_div100]
    push_cast; norm_num

theorem C1_opportunity_score_formula_witness :
    calculate_opportunity_score ⟨some 10, some 10, some 10, some "Low"⟩ =
      round2 (10 * (25/100) + 10 * (30/100) + 10 * (30/100) +
        specCompetitionProxy "Low" * (15/100)) ∧
    calculate_opportunity_score ⟨some 10, some 10, some 10, some "Low"⟩ = 985/100 ∧
    calculate_opportunity_score ⟨some 1, some 1, some 1, some "Very High"⟩ = 115/100 ∧
    calculate_opportunity_score ⟨some 5, some 5, some 5, some "Unknown"⟩ = 5 :=
  C1_opportunity_score_formula 10 10 10 "Low" (by norm_num) (by norm_num) (by norm_num)
    (by norm_num) (by norm_num) (by norm_num) (Or.inl rfl)

/-- C2 counterexample: the claim "any text containing `score: 15` yields 10.0"
is false: `"score: 2, score: 15"` contains `score: 15`, but the leftmost match
of the score pattern is `score: 2`, so the extractor returns 2.0, not 10.0. -/
theorem C2_counterexample :
    containsLit ("score: 15".data) (lowerText ("score: 2, score: 15".data)) = true ∧
    extract_numeric_score ("score: 2, score: 15".data) 5 = 2 ∧ ((2 : ℚ) ≠ 10) := by
  refine ⟨by decide, ?_, by norm_num⟩
  have h : tryPatterns (lowerText ("score: 2, score: 15".data)) =
      some ((2 : Nat) : ℚ) := rfl
  rw [extract_numeric_score, h]
  norm_num

/-- C2 (amended): whenever the pattern loop fires (i.e. the first matching
pattern's first capturing group parses as a float `v`), the returned value is
`v` clamped into [1, 10]; in particular a text whose first match is
`score: 15` yields 10.0, not 15.0. -/
theorem C2_clamped_result (text : List Char) (d v : ℚ)
    (h : tryPatterns (lowerText text) = some v) :
    extract_numeric_score text d = min 10 (max 1 v) ∧
    1 ≤ extract_numeric_score text d ∧ extract_numeric_score text d ≤ 10 ∧
    (∀ d2 : ℚ, extract_numeric_score ("score: 15".data) d2 = 10) := by
  have he : extract_numeric_score text d = min 10 (max 1 v) := by
    rw [extract_numeric_score, h]
  refine ⟨he, ?_, ?_, ?_⟩
  · rw [he]; exact (clamp_bounds v).1
  · rw [he]; exact (clamp_bounds v).2
  · intro d2
    have h2 : tryPatterns (lowerText ("score: 15".data)) = some ((15 : Nat) : ℚ) := rfl
    rw [extract_numeric_score, h2]
    norm_num

theorem C2_clamped_result_witness :
    extract_numeric_score ("score: 15".data) 42 = min 10 (max 1 ((15 : Nat) : ℚ)) ∧
    1 ≤ extract_numeric_score ("score: 15".data) 42 ∧
    extract_numeric_score ("score: 15".data) 42 ≤ 10 ∧
    (∀ d2 : ℚ, extract_numeric_score ("score: 15".data) d2 = 10) :=
  C2_clamped_result ("score: 15".data) 42 ((15 : Nat) : ℚ) rfl

/-- C3: `extract_numeric_score` is total (a total function in this embedding);
when no pattern matches it returns `default` unmodified — not clamped, even
when the default lies outside [1, 10] — and a pattern stage that yields no
parsed value falls through to the next pattern rather than aborting. -/
theorem C3_default_unmodified (text : List Char) (d : ℚ)
    (h : tryPatterns (lowerText text) = none) :
    extract_numeric_score text d = d ∧
    (∀ s : List Char, (searchPat scoreAt s).bind parseFloat = none →
      tryPatterns s = (((searchPat slash10At s).bind parseFloat) <|>
        (((searchPat ratingAt s).bind parseFloat) <|>
          ((searchPat bare10At s).bind parseFloat)))) := by
  constructor
  · rw [extract_numeric_score, h]
  · intro s hs
    rw [tryPatterns, hs]
    rfl

theorem C3_default_unmodified_witness :
    extract_numeric_score ("the product looks promising".data) 42 = 42 ∧
    (∀ s : List Char, (searchPat scoreAt s).bind parseFloat = none →
      tryPatterns s = (((searchPat slash10At s).bind parseFloat) <|>
        (((searchPat ratingAt s).bind parseFloat) <|>
          ((searchPat bare10At s).bind parseFloat)))) :=
  C3_default_unmodified ("the product looks promising".data) 42 (by decide)

/-- C4: the patterns are tried in a fixed priority order, each applied across
the whole lowercased text before the next is tried: whenever the score-label
pattern matches (its first match capturing a group that parses as `v`) and a
later-priority pattern also matches somewhere, the result is the clamped `v`
from the score pattern, regardless of where the later pattern's match occurs
positionally. -/
theorem C4_pattern_priority (text : List Char) (d : ℚ) (g : List Char) (v : ℚ)
    (h1 : searchPat scoreAt (lowerText text) = some g)
    (h2 : parseFloat g = some v)
    (hlater : searchPat slash10At (lowerText text) ≠ none ∨
      searchPat ratingAt (lowerText text) ≠ none ∨
      searchPat bare10At (lowerText text) ≠ none) :
    extract_numeric_score text d = min 10 (max 1 v) := by
  have hb : (searchPat scoreAt (lowerText text)).bind parseFloat = some v := by
    rw [h1]; exact h2
  have ht : tryPatterns (lowerText text) = some v := by
    rw [tryPatterns, hb]; rfl
  rw [extract_numeric_score, ht]

theorem C4_pattern_priority_witness :
    extract_numeric_score ("8/10 but score: 3".data) 5 = min 10 (max 1 ((3 : Nat) : ℚ)) ∧
    extract_numeric_score ("8/10 but score: 3".data) 5 = 3 := by
  have hmain := C4_pattern_priority ("8/10 but score: 3".data) 5 ['3'] ((3 : Nat) : ℚ)
    (by decide) rfl (Or.inl (by decide))
  exact ⟨hmain, by rw [hmain]; norm_num⟩

/-- C5 counterexample: the claim quantifies over every text containing a
substring "score: " followed by a number in [1, 10]; the text `"score: 15"`
contains the substring `score: 1` with 1 ∈ [1, 10], yet the extractor
returns 10.0, not 1.0 (the full first match `15` is parsed, then clamped). -/
theorem C5_counterexample :
    containsLit ("score: 1".data) (lowerText ("score: 15".data)) = true ∧
    extract_numeric_score ("score: 15".data) 5 = 10 ∧ ((10 : ℚ) ≠ 1) := by
  refine ⟨by decide, ?_, by norm_num⟩
  have h : tryPatterns (lowerText ("score: 15".data)) = some ((15 : Nat) : ℚ) := rfl
  rw [extract_numeric_score, h]
  norm_num

/-- C5 (amended): for every text and default, when the *first match of the
score-label pattern* captures a group parsing to `N` with `N ∈ [1, 10]`,
`extract_numeric_score(text, default)` returns exactly `N`, regardless of the
default. -/
theorem C5_score_label_value (text : List Char) (d : ℚ) (g : List Char) (v : ℚ)
    (h1 : searchPat scoreAt (lowerText text) = some g)
    (h2 : parseFloat g = some v) (h3 : 1 ≤ v) (h4 : v ≤ 10) :
    extract_numeric_score text d = v := by
  have hb : (searchPat scoreAt (lowerText text)).bind parseFloat = some v := by
    rw [h1]; exact h2
  have ht : tryPatterns (lowerText text) = some v := by
    rw [tryPatterns, hb]; rfl
  rw [extract_numeric_score, ht]
  show min 10 (max 1 v) = v
  rw [max_eq_right h3, min_eq_right h4]

theorem C5_score_label_value_witness :
    extract_numeric_score ("overall score: 7 for this one".data) 42 = ((7 : Nat) : ℚ) :=
  C5_score_label_value ("overall score: 7 for this one".data) 42 ['7'] ((7 : Nat) : ℚ)
    (by decide) rfl (by norm_num) (by norm_num)

/-- C6 counterexample: `KeywordAnalyzer.extract_numeric_score` does NOT obey
the clamp contract: on `"commercial value: 15"` with default 5 it returns
15.0 — a value outside [1, 10] and different from the default — because the
source returns `float(match.group(1))` with no `min`/`max` clamp. -/
theorem C6_counterexample :
    KeywordAnalyzer.extract_numeric_score ("commercial value: 15".data) 5 = 15 ∧
    ¬ (KeywordAnalyzer.extract_numeric_score ("commercial value: 15".data) 5 ≤ 10) ∧
    KeywordAnalyzer.extract_numeric_score ("commercial value: 15".data) 5 ≠ 5 := by
  have h : KeywordAnalyzer.tryPatterns (lowerText ("commercial value: 15".data)) =
      some ((15 : Nat) : ℚ) := rfl
  have he : KeywordAnalyzer.extract_numeric_score ("commercial value: 15".data) 5 =
      ((15 : Nat) : ℚ) := by
    rw [KeywordAnalyzer.extract_numeric_score, h]
  rw [he]
  refine ⟨by norm_num, by norm_num, by norm_num⟩

/-- C6 (amended): the second extractor variant keeps the same default contract
and patterns-first algorithm, but returns the matched value *unclamped*: for
every text and default the result is either the unmodified default (no pattern
stage produced a value) or the raw parsed value of the first firing pattern. -/
theorem C6_unclamped_contract (text : List Char) (d : ℚ) :
    (KeywordAnalyzer.tryPatterns (lowerText text) = none ∧
      KeywordAnalyzer.extract_numeric_score text d = d) ∨
    (∃ v : ℚ, KeywordAnalyzer.tryPatterns (lowerText text) = some v ∧
      KeywordAnalyzer.extract_numeric_score text d = v) := by
  cases h : KeywordAnalyzer.tryPatterns (lowerText text) with
  | none =>
      exact Or.inl ⟨rfl, by rw [KeywordAnalyzer.extract_numeric_score, h]⟩
  | some v =>
      exact Or.inr ⟨v, rfl, by rw [KeywordAnalyzer.extract_numeric_score, h]⟩

theorem C6_unclamped_contract_witness :
    (KeywordAnalyzer.tryPatterns (lowerText ("commercial value: 3".data)) = none ∧
      KeywordAnalyzer.extract_numeric_score ("commercial value: 3".data) 42 = 42) ∨
    (∃ v : ℚ, KeywordAnalyzer.tryPatterns (lowerText ("commercial value: 3".data)) = some v ∧
      KeywordAnalyzer.extract_numeric_score ("commercial value: 3".data) 42 = v) :=
  C6_unclamped_contract ("commercial value: 3".data) 42

/-- C7 counterexample: `calculate_opportunity_score` performs no validation of
the numeric sub-scores: the out-of-range `trend_score = 100` flows unmodified
into the weighted sum, producing 28.75 — a value above 10, impossible had the
input been rejected or clamped into [1, 10]. -/
theorem C7_counterexample :
    calculate_opportunity_score ⟨some 100, some 5, some 5, some "Unknown"⟩ = 2875/100 ∧
    ¬ (calculate_opportunity_score ⟨some 100, some 5, some 5, some "Unknown"⟩ ≤ 10) := by
  have h : calculate_opportunity_score ⟨some 100, some 5, some 5, some "Unknown"⟩ =
      round2 (100 * (25/100) + 5 * (30/100) + 5 * (30/100) + 5 * (15/100)) := rfl
  have h2 : (100:ℚ) * (25/100) + 5 * (30/100) + 5 * (30/100) + 5 * (15/100) =
      ((2875:ℤ):ℚ)/100 := by push_cast; norm_num
  constructor
  · rw [h, h2, round2_div100]; push_cast; norm_num
  · rw [h, h2, round2_div100]; push_cast; norm_num

/-- C7 (amended): `calculate_opportunity_score` does not validate the supplied
sub-scores: for every record the result is the rounded weighted sum of the raw
values — an out-of-range value flows unmodified into the weighted sum (so the
composite can leave [1, 10], as at trend_score = 100). -/
theorem C7_no_validation (t p m : ℚ) (c : Option String) :
    calculate_opportunity_score ⟨some t, some p, some m, c⟩ =
      round2 (t * (25/100) + p * (30/100) + m * (30/100) +
        competitionScore ⟨some t, some p, some m, c⟩ * (15/100)) ∧
    calculate_opportunity_score ⟨some 100, some 5, some 5, some "Unknown"⟩ = 2875/100 := by
  constructor
  · rfl
  · have h : calculate_opportunity_score ⟨some 100, some 5, some 5, some "Unknown"⟩ =
        round2 (100 * (25/100) + 5 * (30/100) + 5 * (30/100) + 5 * (15/100)) := rfl
    rw [h, show (100:ℚ) * (25/100) + 5 * (30/100) + 5 * (30/100) + 5 * (15/100) =
      ((2875:ℤ):ℚ)/100 by push_cast; norm_num, round2_div100]
    push_cast; norm_num

theorem C7_no_validation_witness :
    calculate_opportunity_score ⟨some 100, some 5, some 5, some "Unknown"⟩ =
      round2 (100 * (25/100) + 5 * (30/100) + 5 * (30/100) +
        competitionScore ⟨some 100, some 5, some 5, some "Unknown"⟩ * (15/100)) ∧
    calculate_opportunity_score ⟨some 100, some 5, some 5, some "Unknown"⟩ = 2875/100 :=
  C7_no_validation 100 5 5 (some "Unknown")

/-- C8: `calculate_opportunity_score` never fails on missing or unrecognized
inputs: an absent `competition_level` and an explicit "Unknown" are treated
identically, an unrecognized label maps to the 5.0 proxy exactly like
"Unknown", each absent numeric factor behaves exactly like an explicit 5.0
(the neutral midpoint, never zero), and the all-absent record scores 5.00. -/
theorem C8_missing_defaults :
    (∀ t p m : Option ℚ, calculate_opportunity_score ⟨t, p, m, none⟩ =
        calculate_opportunity_score ⟨t, p, m, some "Unknown"⟩) ∧
    (∀ (p m : Option ℚ) (c : Option String), calculate_opportunity_score ⟨none, p, m, c⟩ =
        calculate_opportunity_score ⟨some 5, p, m, c⟩) ∧
    (∀ (t m : Option ℚ) (c : Option String), calculate_opportunity_score ⟨t, none, m, c⟩ =
        calculate_opportunity_score ⟨t, some 5, m, c⟩) ∧
    (∀ (t p : Option ℚ) (c : Option String), calculate_opportunity_score ⟨t, p, none, c⟩ =
        calculate_opportunity_score ⟨t, p, some 5, c⟩) ∧
    (∀ (t p m : Option ℚ) (s : String), competition_scores s = none →
        calculate_opportunity_score ⟨t, p, m, some s⟩ =
          calculate_opportunity_score ⟨t, p, m, some "Unknown"⟩) ∧
    calculate_opportunity_score ⟨none, none, none, none⟩ = 5 := by
  refine ⟨fun t p m => rfl, fun p m c => rfl, fun t m c => rfl, fun t p c => rfl, ?_, ?_⟩
  · intro t p m s h
    have hu : (competition_scores "Unknown").getD (5:ℚ) = 5 := by decide
    unfold calculate_opportunity_score competitionScore
    simp only [Option.getD_some, h, Option.getD_none, hu]
  · have h : calculate_opportunity_score ⟨none, none, none, none⟩ =
        round2 (5 * (25/100) + 5 * (30/100) + 5 * (30/100) + 5 * (15/100)) := rfl
    rw [h, show (5:ℚ) * (25/100) + 5 * (30/100) + 5 * (30/100) + 5 * (15/100) =
      ((500:ℤ):ℚ)/100 by push_cast; norm_num, round2_div100]
    push_cast; norm_num

theorem C8_missing_defaults_witness :
    calculate_opportunity_score ⟨some 7, some 7, some 7, some "Galactic"⟩ =
      calculate_opportunity_score ⟨some 7, some 7, some 7, some "Unknown"⟩ :=
  C8_missing_defaults.2.2.2.2.1 (some 7) (some 7) (some 7) "Galactic" (by decide)

/-- C9: no clamping is applied to the final composite — for every record the
result is exactly the rounded weighted sum (even when that leaves [1, 10], as
the all-20 record shows) — and whenever the three numeric sub-scores (after
the 5.0 fallback) lie in [1, 10], the composite lies in [1, 10] by
construction, the competition proxy always lying in [2, 9]. -/
theorem C9_no_clamp_and_bounds :
    (∀ a : Analysis, calculate_opportunity_score a =
      round2 (a.trend_score.getD 5 * (25/100) + a.profit_potential.getD 5 * (30/100) +
        a.market_demand.getD 5 * (30/100) + competitionScore a * (15/100))) ∧
    (∀ a : Analysis,
      1 ≤ a.trend_score.getD 5 → a.trend_score.getD 5 ≤ 10 →
      1 ≤ a.profit_potential.getD 5 → a.profit_potential.getD 5 ≤ 10 →
      1 ≤ a.market_demand.getD 5 → a.market_demand.getD 5 ≤ 10 →
      1 ≤ calculate_opportunity_score a ∧ calculate_opportunity_score a ≤ 10) ∧
    calculate_opportunity_score ⟨some 20, some 20, some 20, some "Low"⟩ = 1835/100 := by
  refine ⟨fun a => rfl, ?_, ?_⟩
  · intro a h1 h2 h3 h4 h5 h6
    obtain ⟨hc1, hc2⟩ := competitionScore_bounds a
    have hs1 : 115/100 ≤ a.trend_score.getD 5 * (25/100) +
        a.profit_potential.getD 5 * (30/100) + a.market_demand.getD 5 * (30/100) +
        competitionScore a * (15/100) := by linarith
    have hs2 : a.trend_score.getD 5 * (25/100) + a.profit_potential.getD 5 * (30/100) +
        a.market_demand.getD 5 * (30/100) + competitionScore a * (15/100) ≤ 985/100 := by
      linarith
    exact round2_bounds _ hs1 hs2
  · have h : calculate_opportunity_score ⟨some 20, some 20, some 20, some "Low"⟩ =
        round2 (20 * (25/100) + 20 * (30/100) + 20 * (30/100) + 9 * (15/100)) := rfl
    rw [h, show (20:ℚ) * (25/100) + 20 * (30/100) + 20 * (30/100) + 9 * (15/100) =
      ((1835:ℤ):ℚ)/100 by push_cast; norm_num, round2_div100]
    push_cast; norm_num

theorem C9_no_clamp_and_bounds_witness :
    1 ≤ calculate_opportunity_score ⟨some 10, some 10, some 10, some "Low"⟩ ∧
    calculate_opportunity_score ⟨some 10, some 10, some 10, some "Low"⟩ ≤ 10 :=
  C9_no_clamp_and_bounds.2.1 ⟨some 10, some 10, some 10, some "Low"⟩
    (by norm_num) (by norm_num) (by norm_num) (by norm_num) (by norm_num) (by norm_num)

/-- C10: the `/10`-suffix fallback pattern matches a digit run immediately
followed by the digits `10` with no separator, so on the text `"in 2010"` —
which contains no score-like mention — the extractor captures the group `20`
(the slash-10 pattern's match), parses it, clamps it to 10.0 and returns that
instead of the default. -/
theorem C10_bare_year_matches (d : ℚ) :
    searchPat scoreAt (lowerText ("in 2010".data)) = none ∧
    searchPat ratingAt (lowerText ("in 2010".data)) = none ∧
    searchPat slash10At (lowerText ("in 2010".data)) = some ['2', '0'] ∧
    extract_numeric_score ("in 2010".data) d = 10 ∧
    (d ≠ 10 → extract_numeric_score ("in 2010".data) d ≠ d) := by
  have h : tryPatterns (lowerText ("in 2010".data)) = some ((20 : Nat) : ℚ) := rfl
  have he : extract_numeric_score ("in 2010".data) d = 10 := by
    rw [extract_numeric_score, h]
    norm_num
  refine ⟨by decide, by decide, by decide, he, ?_⟩
  intro hd
  rw [he]
  exact fun hcontra => hd hcontra.symm

theorem C10_bare_year_matches_witness :
    extract_numeric_score ("in 2010".data) 5 = 10 ∧
    extract_numeric_score ("in 2010".data) 5 ≠ 5 := by
  have h := C10_bare_year_matches 5
  exact ⟨h.2.2.2.1, h.2.2.2.2 (by norm_num)⟩
